import Mathlib

/-!
Verification of the anti-pattern detection core of `mcp-code-reviewer`
(vibe-check MCP server).

The repository ships the MCP glue (`src/vibe_check/server.py`,
`src/anti_pattern_coach/tools/demo_tool.py`); the detection engine itself
(`PatternDetector`, `EducationalContentGenerator`, the pattern catalog) is
only referenced from that glue.  The engine is therefore modelled here from
the specification (rule-based pattern-confidence scorer: case-insensitive
substring matching, weight aggregation, clamped normalised confidence,
threshold decision), while `demo_analyze_text` is embedded from its Python
source.

Python floats are modelled by rationals (`ℚ`), Python strings by `String`
(matching works on the underlying character list), exceptions by `Except`.
-/

namespace VibeCheck

/-- Modelled from the spec: an indicator of a `PatternDefinition` —
a phrase to search for (case-insensitively) together with its weight.
(The engine source is absent from the repository; spec §3 Data Model.) -/
structure Indicator where
  text : String
  weight : ℚ
deriving DecidableEq, Repr

/-- Modelled from the spec: a pattern definition — identifier, ordered
indicator list, detection threshold (spec §3 Data Model). -/
structure PatternDefinition where
  id : String
  indicators : List Indicator
  threshold : ℚ
deriving DecidableEq, Repr

/-- Modelled from the spec: one piece of matched evidence — pattern id,
matched indicator text, offset of the match in the source text, contributed
weight (spec §3 Data Model). -/
structure Evidence where
  patternId : String
  indicatorText : String
  position : Nat
  weight : ℚ
deriving DecidableEq, Repr

/-- Modelled from the spec: per-pattern analysis outcome (spec §3). -/
structure DetectionResult where
  patternId : String
  detected : Bool
  confidence : ℚ
  evidence : List Evidence
  threshold : ℚ
deriving DecidableEq, Repr

/-- Case-insensitive view of a string: its characters, lower-cased. -/
def lowerData (s : String) : List Char :=
  s.data.map Char.toLower

/-- Index of the first occurrence of `needle` as a contiguous sublist of
`hay`, or `none` (the model of Python `str.find`). -/
def findFirst (needle : List Char) : List Char → Option Nat
  | [] => if needle.isPrefixOf ([] : List Char) then some 0 else none
  | c :: t =>
      if needle.isPrefixOf (c :: t) then some 0
      else (findFirst needle t).map (· + 1)

/-- Predicate: `needle` occurs somewhere in `hay` as a contiguous sublist. -/
def OccursIn (needle hay : List Char) : Prop :=
  ∃ i, needle <+: hay.drop i

/-- Does this indicator match the text (case-insensitive substring)? -/
def indicatorMatches (text : String) (ind : Indicator) : Bool :=
  (findFirst (lowerData ind.text) (lowerData text)).isSome

/-- Modelled from the spec: the Evidence Matcher (spec §4.1) — one Evidence
entry per matching indicator, in catalog-defined indicator order, each
recording the first occurrence of the indicator in the text. -/
def evidenceFor (text : String) (p : PatternDefinition) : List Evidence :=
  p.indicators.filterMap fun ind =>
    (findFirst (lowerData ind.text) (lowerData text)).map fun i =>
      { patternId := p.id, indicatorText := ind.text, position := i,
        weight := ind.weight }

/-- Sum of all indicator weights of a pattern. -/
def totalWeight (p : PatternDefinition) : ℚ :=
  (p.indicators.map Indicator.weight).sum

/-- Sum of the weights contributed by the matched indicators. -/
def matchedWeight (text : String) (p : PatternDefinition) : ℚ :=
  ((evidenceFor text p).map Evidence.weight).sum

/-- Clamp a rational to the interval `[0, 1]`. -/
def clamp01 (x : ℚ) : ℚ :=
  if x < 0 then 0 else if 1 < x then 1 else x

/-- Modelled from the spec: the Confidence Scorer (spec §4.2) — matched
weight over total weight, clamped to `[0,1]`. -/
def confidence (text : String) (p : PatternDefinition) : ℚ :=
  clamp01 (matchedWeight text p / totalWeight p)

/-- Modelled from the spec: Matcher plus Scorer for a single pattern
(spec §4.1–4.2); `detected = confidence >= threshold`. -/
def detectPattern (text : String) (p : PatternDefinition) : DetectionResult :=
  { patternId := p.id
    detected := decide (p.threshold ≤ confidence text p)
    confidence := confidence text p
    evidence := evidenceFor text p
    threshold := p.threshold }

/-- Modelled from the spec: the Detection Orchestrator (spec §4.4, §6) —
one `DetectionResult` per catalog pattern, in catalog order. -/
def analyze (text : String) (catalog : List PatternDefinition) :
    List DetectionResult :=
  catalog.map (detectPattern text)

/-- Modelled from the spec: load-time configuration failure (spec §7). -/
inductive ConfigError where
  | duplicateIdentifiers : ConfigError
deriving DecidableEq, Repr

/-- Modelled from the spec: the loaded, immutable pattern catalog
(spec §4.3). -/
structure PatternCatalog where
  patterns : List PatternDefinition
deriving DecidableEq, Repr

/-- Modelled from the spec: `loadCatalog` (spec §6, §4.3) — duplicate
pattern identifiers are a load-time fatal configuration error. -/
def loadCatalog (source : List PatternDefinition) :
    Except ConfigError PatternCatalog :=
  if (source.map PatternDefinition.id).Nodup then .ok ⟨source⟩
  else .error .duplicateIdentifiers

/-- All indicator weights of a pattern are nonnegative (implicit in the
spec: weights contribute to a confidence normalised into `[0,1]`). -/
def WFWeights (p : PatternDefinition) : Prop :=
  ∀ ind ∈ p.indicators, 0 ≤ ind.weight

/-- The demo pattern of spec §8: `custom_rest_server`. -/
def customRestServer : PatternDefinition :=
  { id := "custom_rest_server"
    indicators :=
      [ { text := "building a custom REST server", weight := 6/10 },
        { text := "no official API client", weight := 4/10 } ]
    threshold := 5/10 }

/-- The first demo input of spec §8. -/
def demoText : String := "We are building a custom REST server for this."

/-! ### Properties of the first-occurrence finder -/

theorem findFirst_eq_none_iff {n h : List Char} :
    findFirst n h = none ↔ ∀ i, ¬ n <+: h.drop i := by
  induction h with
  | nil =>
      by_cases hp : n.isPrefixOf ([] : List Char)
      · have hn : n = [] := by simpa using List.isPrefixOf_iff_prefix.mp hp
        simp [findFirst, hp, hn]
      · have hn : ¬ n <+: ([] : List Char) :=
          fun hc => hp (List.isPrefixOf_iff_prefix.mpr hc)
        simp only [findFirst, hp, if_neg, Bool.false_eq_true, not_false_iff, true_iff]
        intro i
        simpa using hn
  | cons c t ih =>
      by_cases hp : n.isPrefixOf (c :: t)
      · simp only [findFirst, hp, if_pos, reduceCtorEq, false_iff, not_forall, not_not]
        exact ⟨0, by simpa using List.isPrefixOf_iff_prefix.mp hp⟩
      · have hp' : ¬ n <+: (c :: t) :=
          fun hc => hp (List.isPrefixOf_iff_prefix.mpr hc)
        simp only [findFirst, hp, if_neg, Bool.false_eq_true, not_false_iff,
          Option.map_eq_none', ih]
        constructor
        · intro hall i
          match i with
          | 0 => simpa using hp'
          | Nat.succ j => simpa using hall j
        · intro hall i
          simpa using hall (i + 1)

theorem findFirst_eq_some {n h : List Char} {i : Nat} (hf : findFirst n h = some i) :
    n <+: h.drop i ∧ ∀ j, j < i → ¬ n <+: h.drop j := by
  induction h generalizing i with
  | nil =>
      by_cases hp : n.isPrefixOf ([] : List Char)
      · have hi : i = 0 := by
          simpa [findFirst, hp] using hf.symm
        subst hi
        exact ⟨by simpa using List.isPrefixOf_iff_prefix.mp hp,
               fun j hj => absurd hj (Nat.not_lt_zero j)⟩
      · simp [findFirst, hp] at hf
  | cons c t ih =>
      by_cases hp : n.isPrefixOf (c :: t)
      · have hi : i = 0 := by
          simpa [findFirst, hp] using hf.symm
        subst hi
        exact ⟨by simpa using List.isPrefixOf_iff_prefix.mp hp,
               fun j hj => absurd hj (Nat.not_lt_zero j)⟩
      · have hp' : ¬ n <+: (c :: t) :=
          fun hc => hp (List.isPrefixOf_iff_prefix.mpr hc)
        simp only [findFirst, hp, if_neg, Bool.false_eq_true, not_false_iff] at hf
        cases hft : findFirst n t with
        | none => rw [hft] at hf; simp at hf
        | some k =>
            rw [hft] at hf
            simp at hf
            obtain ⟨h1, h2⟩ := ih hft
            subst hf
            refine ⟨by simpa using h1, ?_⟩
            intro j hj
            match j with
            | 0 => simpa using hp'
            | Nat.succ m =>
                have hm : m < k := by omega
                simpa using h2 m hm

theorem findFirst_isSome_iff {n h : List Char} :
    (findFirst n h).isSome = true ↔ OccursIn n h := by
  constructor
  · intro hs
    obtain ⟨i, hi⟩ := Option.isSome_iff_exists.mp hs
    exact ⟨i, (findFirst_eq_some hi).1⟩
  · rintro ⟨i, hi⟩
    cases hfc : findFirst n h with
    | none => exact absurd hi (findFirst_eq_none_iff.mp hfc i)
    | some k => rfl

theorem OccursIn.append_right {n t : List Char} (s : List Char) (h : OccursIn n t) :
    OccursIn n (t ++ s) := by
  obtain ⟨i, hi⟩ := h
  refine ⟨i, ?_⟩
  rw [List.drop_append_eq_append_drop]
  exact hi.trans (List.prefix_append _ _)

theorem lowerData_append (s t : String) :
    lowerData (s ++ t) = lowerData s ++ lowerData t := by
  simp [lowerData]

theorem indicatorMatches_append {t s : String} {ind : Indicator}
    (h : indicatorMatches t ind = true) : indicatorMatches (t ++ s) ind = true := by
  unfold indicatorMatches at h ⊢
  rw [findFirst_isSome_iff] at h ⊢
  rw [lowerData_append]
  exact h.append_right _

/-! ### Evidence, matched weight and confidence -/

theorem weight_filterMap (pid : String) (t : String) (l : List Indicator) :
    ((l.filterMap fun ind =>
        (findFirst (lowerData ind.text) (lowerData t)).map fun i =>
          ({ patternId := pid, indicatorText := ind.text, position := i,
             weight := ind.weight } : Evidence)).map Evidence.weight)
      = (l.filter fun ind => indicatorMatches t ind).map Indicator.weight := by
  induction l with
  | nil => simp
  | cons a l ih =>
      by_cases hm : indicatorMatches t a
      · obtain ⟨i, hi⟩ := Option.isSome_iff_exists.mp (by simpa [indicatorMatches] using hm)
        simp [List.filterMap_cons, List.filter_cons, hm, hi, ih]
      · have hnone : findFirst (lowerData a.text) (lowerData t) = none := by
          rw [← Option.not_isSome_iff_eq_none]
          simpa [indicatorMatches] using hm
        simp [List.filterMap_cons, List.filter_cons, hm, hnone, ih]

theorem matchedWeight_eq_filter (t : String) (p : PatternDefinition) :
    matchedWeight t p
      = ((p.indicators.filter fun ind => indicatorMatches t ind).map Indicator.weight).sum := by
  unfold matchedWeight evidenceFor
  exact congrArg List.sum (weight_filterMap p.id t p.indicators)

theorem matchedWeight_append (t s : String) (p : PatternDefinition) (hw : WFWeights p) :
    matchedWeight t p ≤ matchedWeight (t ++ s) p := by
  rw [matchedWeight_eq_filter, matchedWeight_eq_filter]
  apply List.Sublist.sum_le_sum
  · exact List.Sublist.map _
      (List.monotone_filter_right _ fun a ha => indicatorMatches_append ha)
  · intro x hx
    obtain ⟨ind, hind, rfl⟩ := List.mem_map.mp hx
    exact hw ind (List.mem_filter.mp hind).1

theorem totalWeight_nonneg (p : PatternDefinition) (hw : WFWeights p) :
    0 ≤ totalWeight p := by
  apply List.sum_nonneg
  intro x hx
  obtain ⟨ind, hind, rfl⟩ := List.mem_map.mp hx
  exact hw ind hind

theorem clamp01_mono {x y : ℚ} (h : x ≤ y) : clamp01 x ≤ clamp01 y := by
  unfold clamp01
  split_ifs <;> linarith

theorem confidence_append (t s : String) (p : PatternDefinition) (hw : WFWeights p) :
    confidence t p ≤ confidence (t ++ s) p := by
  unfold confidence
  exact clamp01_mono
    (div_le_div_of_nonneg_right (matchedWeight_append t s p hw) (totalWeight_nonneg p hw))

theorem evidenceFor_eq_nil {t : String} {p : PatternDefinition}
    (h : ∀ ind ∈ p.indicators, ¬ OccursIn (lowerData ind.text) (lowerData t)) :
    evidenceFor t p = [] := by
  unfold evidenceFor
  rw [List.filterMap_eq_nil_iff]
  intro ind hind
  have hnone : findFirst (lowerData ind.text) (lowerData t) = none := by
    rw [findFirst_eq_none_iff]
    intro i hi
    exact h ind hind ⟨i, hi⟩
  simp [hnone]

theorem clamp01_zero : clamp01 0 = 0 := by
  norm_num [clamp01]

theorem confidence_of_nil_evidence {t : String} {p : PatternDefinition}
    (h : evidenceFor t p = []) : confidence t p = 0 := by
  unfold confidence matchedWeight
  rw [h]
  simp [clamp01_zero]

theorem detected_of_nil_evidence {t : String} {p : PatternDefinition}
    (h : evidenceFor t p = []) (hth : 0 < p.threshold) :
    (detectPattern t p).detected = false := by
  unfold detectPattern
  simp only [decide_eq_false_iff_not, not_le]
  rw [confidence_of_nil_evidence h]
  exact hth

/-! ### Concrete evaluation of the spec §8 scenario -/

/-- The single Evidence entry produced on the first demo input. -/
def demoEvidence : Evidence :=
  { patternId := "custom_rest_server"
    indicatorText := "building a custom REST server"
    position := 7
    weight := 6/10 }

theorem evidenceFor_demo :
    evidenceFor demoText customRestServer = [demoEvidence] := rfl

theorem totalWeight_demo : totalWeight customRestServer = 1 := by
  norm_num [totalWeight, customRestServer]

theorem confidence_demo : confidence demoText customRestServer = 6/10 := by
  unfold confidence matchedWeight
  rw [evidenceFor_demo, totalWeight_demo]
  norm_num [demoEvidence, clamp01]

theorem detected_demo : (detectPattern demoText customRestServer).detected = true := by
  have h : (detectPattern demoText customRestServer).detected
      = decide (customRestServer.threshold ≤ confidence demoText customRestServer) := rfl
  rw [h, confidence_demo, decide_eq_true_eq]
  norm_num [customRestServer]

/-! ### The demo tool (`src/anti_pattern_coach/tools/demo_tool.py`)

`demo_analyze_text` wraps the detection engine and the educational-content
generator in a `try/except`.  Both callees are absent from the repository
(`PatternDetector.analyze_text_for_patterns`,
`EducationalContentGenerator.generate_educational_response`), so they are
parameters here; `Except.error` models a raised Python exception. -/

/-- The educational detail levels (`DetailLevel` enum, referenced by
`demo_tool.py` via `getattr(DetailLevel, detail_level.upper(), STANDARD)`). -/
inductive DetailLevel where
  | BRIEF
  | STANDARD
  | COMPREHENSIVE
deriving DecidableEq, Repr

/-- Model of `getattr(DetailLevel, detail_level.upper(), DetailLevel.STANDARD)`
in `demo_tool.py` line 55. -/
def parseDetailLevel (s : String) : DetailLevel :=
  if s.toUpper = "BRIEF" then .BRIEF
  else if s.toUpper = "STANDARD" then .STANDARD
  else if s.toUpper = "COMPREHENSIVE" then .COMPREHENSIVE
  else .STANDARD

/-- Modelled from the spec: the payload produced by the educational-content
collaborator (its wording is an explicit non-goal of the spec, so the
content is opaque here). -/
structure EducationalResponse where
  content : String
deriving DecidableEq, Repr

/-- The `"demo_analysis"` sub-dictionary of `demo_analyze_text`'s result
(`text_length` is absent on the error path). -/
structure DemoAnalysis where
  text_length : Option Nat
  patterns_detected : Nat
  analysis_method : String
deriving DecidableEq, Repr

/-- The dictionary returned by `demo_analyze_text`; `none` models an absent
key (or the empty `educational_content` dictionary). -/
structure DemoResult where
  error : Option String
  demo_analysis : DemoAnalysis
  patterns : Option (List DetectionResult)
  educational_content : Option EducationalResponse
  server_status : Option String
  accuracy_note : Option String
deriving DecidableEq, Repr

/-- The `except` branch of `demo_analyze_text` (lines 78-86). -/
def errorResult (e : String) : DemoResult :=
  { error := some ("Analysis failed: " ++ e)
    demo_analysis :=
      { text_length := none
        patterns_detected := 0
        analysis_method := "Error occurred" }
    patterns := none
    educational_content := none
    server_status := none
    accuracy_note := none }

/-- Lines 50-64 of `demo_tool.py`: educational content is generated only
when the first pattern result exists and is detected (`patterns and
patterns[0].detected`); a failure of the generator propagates to the
`except` branch. -/
def demoEducational (patterns : List DetectionResult) (detail_level : String)
    (educator :
      String → ℚ → List Evidence → DetailLevel → Except String EducationalResponse) :
    Except String (Option EducationalResponse) :=
  match patterns with
  | [] => .ok none
  | first :: _ =>
      if first.detected then
        (educator first.patternId first.confidence first.evidence
          (parseDetailLevel detail_level)).map some
      else .ok none

/-- Lines 66-76 of `demo_tool.py`: the success dictionary. -/
def successResult (text : String) (patterns : List DetectionResult)
    (educational_content : Option EducationalResponse) : DemoResult :=
  { error := none
    demo_analysis :=
      { text_length := some text.length
        patterns_detected := (patterns.filter fun r => r.detected).length
        analysis_method := "Phase 1 validated core engine" }
    patterns := some patterns
    educational_content := educational_content
    server_status := some "✅ FastMCP server operational with core engine integration"
    accuracy_note :=
      some "Using validated detection engine (87.5% accuracy, 0% false positives)" }

/-- Model of `demo_analyze_text` (lines 19-86 of `demo_tool.py`): run the engine and
the educational generator inside `try`, falling back to the error
dictionary on any exception. -/
def demo_analyze_text (text : String) (detail_level : String)
    (engine : String → Except String (List DetectionResult))
    (educator :
      String → ℚ → List Evidence → DetailLevel → Except String EducationalResponse) :
    DemoResult :=
  match engine text with
  | .error e => errorResult e
  | .ok patterns =>
      match demoEducational patterns detail_level educator with
      | .error e => errorResult e
      | .ok educational_content => successResult text patterns educational_content

/-! ### A pattern with threshold 0 (legal per the spec: threshold in 0-1) -/

/-- A catalog-legal pattern whose threshold is `0`. -/
def thresholdZeroPattern : PatternDefinition :=
  { id := "p0", indicators := [{ text := "x", weight := 1 }], threshold := 0 }

theorem thresholdZero_evidence : evidenceFor "" thresholdZeroPattern = [] := rfl

theorem thresholdZero_noOccur :
    ∀ ind ∈ thresholdZeroPattern.indicators,
      ¬ OccursIn (lowerData ind.text) (lowerData "") := by
  intro ind hind
  rw [← findFirst_isSome_iff]
  simp only [thresholdZeroPattern, List.mem_singleton] at hind
  subst hind
  decide

theorem thresholdZero_detected :
    (detectPattern "" thresholdZeroPattern).detected = true := by
  have h : (detectPattern "" thresholdZeroPattern).detected
      = decide (thresholdZeroPattern.threshold
          ≤ confidence "" thresholdZeroPattern) := rfl
  have hc : confidence "" thresholdZeroPattern = 0 :=
    confidence_of_nil_evidence thresholdZero_evidence
  rw [h, hc, decide_eq_true_eq]
  norm_num [thresholdZeroPattern]

/-! ### Claims -/

/-- C1: for every text and pattern, the confidence equals the sum of the
matched indicators' weights divided by the sum of all indicator weights,
clamped to `[0,1]`, and `detected` equals `confidence >= threshold`; on the
pattern `custom_rest_server` and the input
"We are building a custom REST server for this." the confidence is `0.6`
and `detected` is `true`. -/
theorem C1_confidence_formula :
    (∀ (t : String) (p : PatternDefinition),
        (detectPattern t p).confidence
          = clamp01 (((p.indicators.filter fun ind => indicatorMatches t ind).map
              Indicator.weight).sum / totalWeight p)
        ∧ (detectPattern t p).detected
          = decide (p.threshold ≤ (detectPattern t p).confidence))
    ∧ (detectPattern demoText customRestServer).confidence = 6/10
    ∧ (detectPattern demoText customRestServer).detected = true := by
  refine ⟨fun t p => ⟨?_, rfl⟩, confidence_demo, detected_demo⟩
  show confidence t p = _
  rw [confidence, matchedWeight_eq_filter]

/-- C2 (amended): for every pattern and text in which no indicator of the
pattern occurs, the result has empty evidence and confidence `0`; and
`detected` is `false` provided the pattern's threshold is positive. -/
theorem C2_zero_occurrence (t : String) (p : PatternDefinition)
    (hocc : ∀ ind ∈ p.indicators, ¬ OccursIn (lowerData ind.text) (lowerData t))
    (hth : 0 < p.threshold) :
    (detectPattern t p).evidence = []
    ∧ (detectPattern t p).confidence = 0
    ∧ (detectPattern t p).detected = false := by
  have hnil := evidenceFor_eq_nil hocc
  exact ⟨hnil, confidence_of_nil_evidence hnil, detected_of_nil_evidence hnil hth⟩

theorem C2_zero_occurrence_witness :
    ((∀ ind ∈ customRestServer.indicators,
        ¬ OccursIn (lowerData ind.text) (lowerData "Using the official SDK client."))
      ∧ 0 < customRestServer.threshold)
    ∧ (detectPattern "Using the official SDK client." customRestServer).evidence = []
    ∧ (detectPattern "Using the official SDK client." customRestServer).confidence = 0
    ∧ (detectPattern "Using the official SDK client." customRestServer).detected
        = false := by
  have hocc : ∀ ind ∈ customRestServer.indicators,
      ¬ OccursIn (lowerData ind.text) (lowerData "Using the official SDK client.") := by
    intro ind hind
    rw [← findFirst_isSome_iff]
    simp only [customRestServer, List.mem_cons, List.mem_singleton,
      List.not_mem_nil, or_false] at hind
    rcases hind with hind | hind <;> subst hind <;> decide
  have hth : 0 < customRestServer.threshold := by norm_num [customRestServer]
  exact ⟨⟨hocc, hth⟩, C2_zero_occurrence _ _ hocc hth⟩

/-- C2 counterexample: the claim as stated is false — a pattern with
threshold `0` (legal: the spec allows thresholds in 0-1) is `detected` on
the empty text although no indicator occurs in it. -/
theorem C2_counterexample :
    (∀ ind ∈ thresholdZeroPattern.indicators,
        ¬ OccursIn (lowerData ind.text) (lowerData ""))
    ∧ (detectPattern "" thresholdZeroPattern).evidence = []
    ∧ (detectPattern "" thresholdZeroPattern).detected = true :=
  ⟨thresholdZero_noOccur, thresholdZero_evidence, thresholdZero_detected⟩

/-- C3: `analyze` is deterministic and pure — equal texts and equal
catalogs produce identical result lists. -/
theorem C3_deterministic (t₁ t₂ : String) (c₁ c₂ : List PatternDefinition)
    (ht : t₁ = t₂) (hc : c₁ = c₂) : analyze t₁ c₁ = analyze t₂ c₂ := by
  rw [ht, hc]

theorem C3_deterministic_witness :
    (demoText = demoText ∧ [customRestServer] = [customRestServer])
    ∧ analyze demoText [customRestServer] = analyze demoText [customRestServer] :=
  ⟨⟨rfl, rfl⟩, C3_deterministic demoText demoText [customRestServer] [customRestServer]
    rfl rfl⟩

/-- C4: with nonnegative indicator weights (implicit in the spec data
model), extending the text — in particular by one more occurrence of a
matching indicator — never decreases a pattern's confidence. -/
theorem C4_confidence_monotone (t s : String) (p : PatternDefinition)
    (hw : WFWeights p) : confidence t p ≤ confidence (t ++ s) p :=
  confidence_append t s p hw

theorem C4_confidence_monotone_witness :
    WFWeights customRestServer
    ∧ confidence demoText customRestServer
        ≤ confidence (demoText ++ " There is no official API client.")
            customRestServer := by
  have hw : WFWeights customRestServer := by
    intro ind hind
    simp only [customRestServer, List.mem_cons, List.mem_singleton,
      List.not_mem_nil, or_false] at hind
    rcases hind with hind | hind <;> subst hind <;> norm_num
  exact ⟨hw, C4_confidence_monotone _ _ _ hw⟩

/-- C5 (amended): whenever a pattern with positive threshold is detected,
its evidence list is non-empty. -/
theorem C5_detected_evidence (t : String) (p : PatternDefinition)
    (hth : 0 < p.threshold) (hdet : (detectPattern t p).detected = true) :
    (detectPattern t p).evidence ≠ [] := by
  intro hnil
  have hfalse : (detectPattern t p).detected = false :=
    detected_of_nil_evidence hnil hth
  rw [hfalse] at hdet
  exact Bool.false_ne_true hdet

theorem C5_detected_evidence_witness :
    (0 < customRestServer.threshold
      ∧ (detectPattern demoText customRestServer).detected = true)
    ∧ (detectPattern demoText customRestServer).evidence ≠ [] := by
  have hth : 0 < customRestServer.threshold := by norm_num [customRestServer]
  exact ⟨⟨hth, detected_demo⟩, C5_detected_evidence _ _ hth detected_demo⟩

/-- C5 counterexample: the claim as stated is false — with threshold `0`
(legal per the spec) a pattern is detected on the empty text with an empty
evidence list. -/
theorem C5_counterexample :
    (detectPattern "" thresholdZeroPattern).detected = true
    ∧ (detectPattern "" thresholdZeroPattern).evidence = [] :=
  ⟨thresholdZero_detected, thresholdZero_evidence⟩

/-- C6: each indicator contributes at most one Evidence entry (so the
evidence list is never longer than the indicator list), its weight counts
once toward the matched-weight sum no matter how often it occurs, and each
Evidence entry records the first occurrence of its indicator in the text. -/
theorem C6_single_contribution (t : String) (p : PatternDefinition) :
    (evidenceFor t p).length ≤ p.indicators.length
    ∧ matchedWeight t p
        = ((p.indicators.filter fun ind => indicatorMatches t ind).map
            Indicator.weight).sum
    ∧ ∀ ev ∈ evidenceFor t p,
        lowerData ev.indicatorText <+: (lowerData t).drop ev.position
        ∧ ∀ j, j < ev.position →
            ¬ lowerData ev.indicatorText <+: (lowerData t).drop j := by
  refine ⟨List.length_filterMap_le _ _, matchedWeight_eq_filter t p, ?_⟩
  intro ev hev
  obtain ⟨ind, hind, hsome⟩ := List.mem_filterMap.mp hev
  cases hf : findFirst (lowerData ind.text) (lowerData t) with
  | none => rw [hf] at hsome; simp at hsome
  | some k =>
      rw [hf] at hsome
      have hrec : Evidence.mk p.id ind.text k ind.weight = ev := by
        simpa using hsome
      obtain ⟨h1, h2⟩ := findFirst_eq_some hf
      subst hrec
      exact ⟨h1, h2⟩

theorem C6_single_contribution_witness :
    demoEvidence ∈ evidenceFor demoText customRestServer
    ∧ (lowerData demoEvidence.indicatorText
          <+: (lowerData demoText).drop demoEvidence.position
        ∧ ∀ j, j < demoEvidence.position →
            ¬ lowerData demoEvidence.indicatorText <+: (lowerData demoText).drop j) := by
  have hmem : demoEvidence ∈ evidenceFor demoText customRestServer := by
    rw [evidenceFor_demo]
    exact List.mem_singleton.mpr rfl
  exact ⟨hmem, (C6_single_contribution demoText customRestServer).2.2 demoEvidence hmem⟩

/-- C7: `analyze` returns exactly one `DetectionResult` per catalog
pattern, in catalog order, detected or not. -/
theorem C7_one_result_per_pattern (t : String) (catalog : List PatternDefinition) :
    (analyze t catalog).length = catalog.length
    ∧ ∀ i : Nat, (analyze t catalog)[i]? = (catalog[i]?).map (detectPattern t) := by
  refine ⟨by simp [analyze], fun i => ?_⟩
  simp [analyze, List.getElem?_map]

/-- C8: a configuration source holding two pattern definitions with the
same identifier makes `loadCatalog` fail with a `ConfigError`, while
`analyze` itself is total (it always returns one result per pattern and
surfaces no error). -/
theorem C8_duplicate_ids (source : List PatternDefinition)
    (i j : Fin source.length) (hne : i ≠ j)
    (heq : (source.get i).id = (source.get j).id) :
    loadCatalog source = Except.error ConfigError.duplicateIdentifiers
    ∧ ∀ t, (analyze t source).length = source.length := by
  refine ⟨?_, fun t => by simp [analyze]⟩
  unfold loadCatalog
  rw [if_neg]
  intro hnd
  have hinj := List.nodup_iff_injective_get.mp hnd
  have hi : (i.1 : Nat) < (source.map PatternDefinition.id).length := by
    rw [List.length_map]; exact i.2
  have hj : (j.1 : Nat) < (source.map PatternDefinition.id).length := by
    rw [List.length_map]; exact j.2
  have h1 : (source.map PatternDefinition.id).get ⟨i.1, hi⟩ = (source.get i).id := by
    simp [List.get_eq_getElem, List.getElem_map]
  have h2 : (source.map PatternDefinition.id).get ⟨j.1, hj⟩ = (source.get j).id := by
    simp [List.get_eq_getElem, List.getElem_map]
  have hij : (⟨i.1, hi⟩ : Fin (source.map PatternDefinition.id).length) = ⟨j.1, hj⟩ :=
    hinj (h1.trans (heq.trans h2.symm))
  apply hne
  have hval : i.1 = j.1 := by simpa [Fin.mk.injEq] using hij
  exact Fin.ext hval

/-- A catalog source with a duplicated identifier. -/
def dupSource : List PatternDefinition := [customRestServer, customRestServer]

theorem C8_duplicate_ids_witness :
    ((⟨0, by decide⟩ : Fin dupSource.length) ≠ (⟨1, by decide⟩ : Fin dupSource.length)
      ∧ (dupSource.get ⟨0, by decide⟩).id = (dupSource.get ⟨1, by decide⟩).id)
    ∧ loadCatalog dupSource = Except.error ConfigError.duplicateIdentifiers
    ∧ (analyze "" dupSource).length = dupSource.length := by
  have hne : (⟨0, by decide⟩ : Fin dupSource.length) ≠ ⟨1, by decide⟩ := by decide
  have heq : (dupSource.get ⟨0, by decide⟩).id = (dupSource.get ⟨1, by decide⟩).id := rfl
  exact ⟨⟨hne, heq⟩, (C8_duplicate_ids dupSource _ _ hne heq).1,
    (C8_duplicate_ids dupSource _ _ hne heq).2 ""⟩

/-- C9: `demo_analyze_text` never propagates a failure — any exception
yields a dictionary whose `error` value starts with "Analysis failed: " and
whose `demo_analysis.patterns_detected` is `0`; on success it instead
carries the pattern list, `patterns_detected` equal to the number of
detected results, and `text_length` equal to the input's length. -/
theorem C9_exception_safe (text dl : String)
    (engine : String → Except String (List DetectionResult))
    (educator :
      String → ℚ → List Evidence → DetailLevel → Except String EducationalResponse) :
    (∃ e, (demo_analyze_text text dl engine educator).error
          = some ("Analysis failed: " ++ e)
        ∧ (demo_analyze_text text dl engine educator).demo_analysis.patterns_detected
          = 0)
    ∨ ((demo_analyze_text text dl engine educator).error = none
      ∧ ∃ ps, (demo_analyze_text text dl engine educator).patterns = some ps
        ∧ (demo_analyze_text text dl engine educator).demo_analysis.patterns_detected
            = (ps.filter fun r => r.detected).length
        ∧ (demo_analyze_text text dl engine educator).demo_analysis.text_length
            = some text.length) := by
  cases hE : engine text with
  | error e =>
      refine Or.inl ⟨e, ?_, ?_⟩ <;> simp [demo_analyze_text, hE, errorResult]
  | ok patterns =>
      cases hG : demoEducational patterns dl educator with
      | error e =>
          refine Or.inl ⟨e, ?_, ?_⟩ <;>
            simp [demo_analyze_text, hE, hG, errorResult]
      | ok edu =>
          refine Or.inr ⟨?_, patterns, ?_, ?_, ?_⟩ <;>
            simp [demo_analyze_text, hE, hG, successResult]

/-- C10: educational content is produced only when the first returned
result is detected; it is generated from that first result alone, and if
the first result is not detected (even when later ones are) the
educational-content entry is empty. -/
theorem C10_educational_first_only (text dl : String)
    (engine : String → Except String (List DetectionResult))
    (educator :
      String → ℚ → List Evidence → DetailLevel → Except String EducationalResponse)
    (ps : List DetectionResult) (hok : engine text = Except.ok ps) :
    (∀ c, (demo_analyze_text text dl engine educator).educational_content = some c →
        ∃ f, ps.head? = some f ∧ f.detected = true
          ∧ educator f.patternId f.confidence f.evidence (parseDetailLevel dl)
              = Except.ok c)
    ∧ ((∀ f, ps.head? = some f → f.detected = false) →
        (demo_analyze_text text dl engine educator).educational_content = none) := by
  unfold demo_analyze_text
  rw [hok]
  cases ps with
  | nil =>
      constructor
      · intro c hc
        simp [demoEducational, successResult] at hc
      · intro hall
        simp [demoEducational, successResult]
  | cons f rest =>
      by_cases hd : f.detected
      · cases hEd : educator f.patternId f.confidence f.evidence (parseDetailLevel dl) with
        | error e =>
            constructor
            · intro c hc
              simp [demoEducational, Except.map, hd, hEd, errorResult] at hc
            · intro hall
              exact absurd (hall f rfl) (by simp [hd])
        | ok r =>
            constructor
            · intro c hc
              have hcr : c = r := by
                simpa [demoEducational, Except.map, hd, hEd, successResult] using hc.symm
              subst hcr
              exact ⟨f, rfl, hd, hEd⟩
            · intro hall
              exact absurd (hall f rfl) (by simp [hd])
      · constructor
        · intro c hc
          simp [demoEducational, hd, successResult] at hc
        · intro hall
          simp [demoEducational, hd, successResult]

/-- A sample non-detected result. -/
def sampleUndetected : DetectionResult :=
  { patternId := "a", detected := false, confidence := 0, evidence := [], threshold := 1 }

/-- A sample detected result. -/
def sampleDetected : DetectionResult :=
  { patternId := "b", detected := true, confidence := 1, evidence := [], threshold := 1 }

/-- A sample engine whose first result is undetected, second detected. -/
def engine0 : String → Except String (List DetectionResult) :=
  fun _ => Except.ok [sampleUndetected, sampleDetected]

/-- A sample always-succeeding educational-content generator. -/
def educator0 :
    String → ℚ → List Evidence → DetailLevel → Except String EducationalResponse :=
  fun _ _ _ _ => Except.ok { content := "c" }

theorem C10_educational_first_only_witness :
    engine0 "t" = Except.ok [sampleUndetected, sampleDetected]
    ∧ ((∀ c, (demo_analyze_text "t" "standard" engine0 educator0).educational_content
            = some c →
          ∃ f, ([sampleUndetected, sampleDetected] : List DetectionResult).head? = some f
            ∧ f.detected = true
            ∧ educator0 f.patternId f.confidence f.evidence (parseDetailLevel "standard")
                = Except.ok c)
      ∧ ((∀ f, ([sampleUndetected, sampleDetected] : List DetectionResult).head? = some f
            → f.detected = false) →
          (demo_analyze_text "t" "standard" engine0 educator0).educational_content
            = none)) :=
  ⟨rfl, C10_educational_first_only "t" "standard" engine0 educator0
    [sampleUndetected, sampleDetected] rfl⟩

end VibeCheck
